import Mathlib

/-
Verification of the photonai feature-selection wrappers
(photonai/modelwrapper/feature_selection.py), the investigator
compare_configurations route
(photonai/investigator/app/controller/configuration.py), and the Switch
pipeline element as described by the project documentation.

Embedding conventions:
- A numpy 2-d array is a Mat: an explicit column count (numpy keeps the
  column count even for arrays with zero rows) together with the list of
  rows; well-formedness (every row has length ncols) is a separate
  predicate, true of every actual numpy array.
- Python floats are modelled as rationals.
- Exceptions are modelled with Except PyError; a function that cannot
  raise returns its value directly, a numpy fancy-indexing read that can
  raise IndexError returns an Option.
- Calls into third-party sklearn code (f_regression, the fitted
  estimator's feature importances, the supports of VarianceThreshold and
  SelectPercentile, the parameter dictionary of the wrapped estimator)
  are abstracted as explicit arguments or state components: the wrapper
  code under verification treats their results as opaque data.
-/

/-- Python exceptions raised by the modelled code. -/
inductive PyError where
  | valueError (msg : String)
  | indexError
  | typeError
deriving DecidableEq, Repr

/-- Decidable equality of modelled computation results. -/
instance {e a : Type} [DecidableEq e] [DecidableEq a] :
    DecidableEq (Except e a)
  | .error x, .error y =>
    if h : x = y then .isTrue (h ▸ rfl)
    else .isFalse (fun hc => h (Except.error.inj hc))
  | .error _, .ok _ => .isFalse (fun hc => Except.noConfusion hc)
  | .ok _, .error _ => .isFalse (fun hc => Except.noConfusion hc)
  | .ok x, .ok y =>
    if h : x = y then .isTrue (h ▸ rfl)
    else .isFalse (fun hc => h (Except.ok.inj hc))

/-- A numpy 2-d array: column count plus list of rows. -/
structure Mat where
  ncols : Nat
  rows : List (List ℚ)
deriving DecidableEq, Repr

/-- Well-formedness of a Mat: every row has exactly ncols entries.
Every numpy array satisfies this by construction. -/
def Mat.WF (X : Mat) : Prop := ∀ row ∈ X.rows, row.length = X.ncols

instance (X : Mat) : Decidable X.WF := by
  unfold Mat.WF; infer_instance

/-- Entry of a Mat at row r, column c (0 outside the carrier, used only
under bounds). -/
def Mat.entry (X : Mat) (r c : Nat) : ℚ := (X.rows.getD r []).getD c 0

/-- numpy column fancy-indexing X[:, sel]: returns the columns listed in
sel, in the order of sel; raises IndexError (modelled as none) when some
index in sel is out of range for the column count. -/
def selectCols (sel : List Nat) (X : Mat) : Option Mat :=
  if sel.all (fun i => i < X.ncols) then
    some ⟨sel.length, X.rows.map (fun row => sel.map (fun i => row.getD i 0))⟩
  else none

/-- numpy np.where(v < t)[0]: the indices, in increasing order, of the
entries of v that are strictly below t. -/
def npWhereLt (v : List ℚ) (t : ℚ) : List Nat :=
  (List.range v.length).filter (fun i => decide (v.getD i 0 < t))

/-- numpy np.where(v >= t)[0]: the indices, in increasing order, of the
entries of v that are at least t. -/
def npWhereGe (v : List ℚ) (t : ℚ) : List Nat :=
  (List.range v.length).filter (fun i => decide (t ≤ v.getD i 0))

/-- The scatter assignment Xt = np.zeros((m, n)); Xt[:, sel] = X, applied
to one row of X: position j of the result holds entry k of the row when
sel lists j at position k, and 0 when j is not in sel. After fit the
indices in sel are pairwise distinct, so taking the first occurrence
(indexOf) agrees with numpy. -/
def scatterRow (sel : List Nat) (n : Nat) (row : List ℚ) : List ℚ :=
  (List.range n).map (fun j =>
    if j ∈ sel then row.getD (sel.indexOf j) 0 else 0)

/-- State of photonai's FRegressionFilterPValue transformer: the
p-value threshold, the indices selected at fit, and the column count of
the data seen at fit (none before fit, mirroring the None initial
value). -/
structure FRegressionFilterPValue where
  p_threshold : ℚ
  selected_indices : List Nat
  n_original_features : Option Nat
deriving DecidableEq, Repr

/-- FRegressionFilterPValue.__init__(p_threshold). -/
def FRegressionFilterPValue.init (t : ℚ) : FRegressionFilterPValue :=
  ⟨t, [], none⟩

/-- FRegressionFilterPValue.fit: stores X.shape[1] and selects the indices
whose p-value is strictly below p_threshold. The p-value vector is the
second result of sklearn's f_regression(X, y), passed here as an explicit
argument (sklearn returns one p-value per column of X). -/
def FRegressionFilterPValue.fit (st : FRegressionFilterPValue) (X : Mat)
    (pvalues : List ℚ) : FRegressionFilterPValue :=
  { st with
    n_original_features := some X.ncols
    selected_indices := npWhereLt pvalues st.p_threshold }

/-- FRegressionFilterPValue.transform: return X[:, selected_indices]. -/
def FRegressionFilterPValue.transform (st : FRegressionFilterPValue)
    (X : Mat) : Option Mat :=
  selectCols st.selected_indices X

/-- FRegressionFilterPValue.inverse_transform: raise ValueError when the
input's column count differs from the number of selected indices,
otherwise scatter the columns back into a zero array of width
n_original_features. np.zeros((m, None)) raises TypeError when the
transformer was never fitted; the scatter assignment raises IndexError
when a selected index exceeds the target width. The method assigns no
attribute of self, so the returned state is the input state. -/
def FRegressionFilterPValue.inverse_transform (st : FRegressionFilterPValue)
    (X : Mat) : FRegressionFilterPValue × Except PyError Mat :=
  (st,
    if X.ncols ≠ st.selected_indices.length then
      .error (.valueError "X has a different shape than during fitting.")
    else
      match st.n_original_features with
      | none => .error .typeError
      | some n =>
        if st.selected_indices.all (fun i => i < n) then
          .ok ⟨n, X.rows.map (scatterRow st.selected_indices n)⟩
        else .error .indexError)

/-- One key update of a parameter dictionary, modelling one setattr step
of sklearn's BaseEstimator.set_params: an existing key is overwritten, an
unknown key raises ValueError (sklearn rejects invalid parameters). -/
def paramUpdate (ps : List (String × ℚ)) (kv : String × ℚ) :
    Except PyError (List (String × ℚ)) :=
  if ps.any (fun p => p.1 == kv.1) then
    .ok (ps.map (fun p => if p.1 == kv.1 then (p.1, kv.2) else p))
  else .error (.valueError "Invalid parameter")

/-- sklearn BaseEstimator.set_params of the wrapped estimator, applied to
a parameter dictionary (association list with distinct keys): each entry
is assigned in turn. With an empty argument it is a no-op. -/
def estSetParams (ps upd : List (String × ℚ)) :
    Except PyError (List (String × ℚ)) :=
  upd.foldlM paramUpdate ps

/-- State of photonai's ModelSelector transformer. The wrapped estimator
object is abstracted by its parameter dictionary (estimator_params); its
fitted importance scores are passed to fit as an explicit argument. -/
structure ModelSelector where
  threshold : ℚ
  percentile : Bool
  selected_indices : List Nat
  importance_scores : List ℚ
  n_original_features : Option Nat
  estimator_params : List (String × ℚ)
deriving DecidableEq, Repr

/-- ModelSelector.__init__(estimator_obj, threshold, percentile). -/
def ModelSelector.init (eparams : List (String × ℚ)) (t : ℚ)
    (perc : Bool) : ModelSelector :=
  ⟨t, perc, [], [], none, eparams⟩

/-- ModelSelector.fit: stores X.shape[1], fits the wrapped estimator and
reads its importance scores (abstracted as the argument scores, which
sklearn produces with one score per feature of X). With percentile=False
it selects the indices whose score is at least threshold. With
percentile=True it raises ValueError when threshold exceeds 1, otherwise
sorts the scores ascending (np.sort), reads the score at position
floor((1-threshold) * X.shape[1]) (IndexError when out of range, e.g.
threshold = 0) and selects the indices scoring at least that value. -/
def ModelSelector.fit (ms : ModelSelector) (X : Mat) (scores : List ℚ) :
    Except PyError ModelSelector :=
  let ms1 := { ms with
    n_original_features := some X.ncols
    importance_scores := scores }
  if !ms1.percentile then
    .ok { ms1 with selected_indices := npWhereGe scores ms1.threshold }
  else if 1 < ms1.threshold then
    .error (.valueError "Threshold should not be greater than 1")
  else
    let ordered := scores.insertionSort (· ≤ ·)
    let index := (((1 - ms1.threshold) * (X.ncols : ℚ)).floor).toNat
    if h : index < ordered.length then
      .ok { ms1 with
        selected_indices := npWhereGe scores (ordered.get ⟨index, h⟩) }
    else .error .indexError

/-- ModelSelector.transform: X_new = X[:, selected_indices]; when no
feature was selected (X_new has zero columns) the input X is returned
unchanged, otherwise X_new. -/
def ModelSelector.transform (ms : ModelSelector) (X : Mat) : Option Mat :=
  match selectCols ms.selected_indices X with
  | none => none
  | some Xnew => if Xnew.ncols = 0 then some X else some Xnew

/-- ModelSelector.inverse_transform: same shape check, zero array and
scatter as FRegressionFilterPValue.inverse_transform; no attribute of
self is assigned. -/
def ModelSelector.inverse_transform (ms : ModelSelector) (X : Mat) :
    ModelSelector × Except PyError Mat :=
  (ms,
    if X.ncols ≠ ms.selected_indices.length then
      .error (.valueError "X has a different shape than during fitting.")
    else
      match ms.n_original_features with
      | none => .error .typeError
      | some n =>
        if ms.selected_indices.all (fun i => i < n) then
          .ok ⟨n, X.rows.map (scatterRow ms.selected_indices n)⟩
        else .error .indexError)

/-- ModelSelector.set_params: when the dictionary contains the key
threshold, assign its value to self.threshold and remove the entry; the
remaining entries are forwarded to the wrapped estimator's set_params. -/
def ModelSelector.set_params (ms : ModelSelector)
    (params : List (String × ℚ)) : Except PyError ModelSelector :=
  let ms1 := match params.lookup "threshold" with
    | some v => { ms with threshold := v }
    | none => ms
  let rest := params.filter (fun p => !(p.1 == "threshold"))
  (estSetParams ms1.estimator_params rest).map
    (fun eps => { ms1 with estimator_params := eps })

/-- ModelSelector.get_params: returns the wrapped estimator's parameters
(the deep argument is forwarded to sklearn and does not affect which
top-level keys appear). -/
def ModelSelector.get_params (ms : ModelSelector) (_deep : Bool) :
    List (String × ℚ) :=
  ms.estimator_params

/-- State of photonai's FRegressionSelectPercentile transformer. The two
sklearn estimators it is built from are abstracted by their fitted
supports: var_thres holds the column indices VarianceThreshold keeps,
my_fs the indices (into the variance-filtered columns) SelectPercentile
with score function f_regression keeps; my_fs is None before fit. Both
sklearn transforms return their selected columns in increasing index
order. -/
structure FRegressionSelectPercentile where
  percentile : ℚ
  var_thres : List Nat
  my_fs : Option (List Nat)
deriving DecidableEq, Repr

/-- FRegressionSelectPercentile.fit: fit_transform of VarianceThreshold
followed by fitting SelectPercentile on the filtered data; the two
supports computed by sklearn are passed as explicit arguments. -/
def FRegressionSelectPercentile.fit (st : FRegressionSelectPercentile)
    (varSupport percSupport : List Nat) : FRegressionSelectPercentile :=
  { st with var_thres := varSupport, my_fs := some percSupport }

/-- FRegressionSelectPercentile.transform: VarianceThreshold.transform
then SelectPercentile.transform, each keeping its support columns;
calling transform before fit fails (my_fs is None). -/
def FRegressionSelectPercentile.transform (st : FRegressionSelectPercentile)
    (X : Mat) : Option Mat :=
  match st.my_fs with
  | none => none
  | some sel2 => (selectCols st.var_thres X).bind (selectCols sel2)

/-- State of photonai's FClassifSelectPercentile transformer: identical
to FRegressionSelectPercentile except that SelectPercentile is
instantiated with score function f_classif; the abstraction by fitted
supports is the same. -/
structure FClassifSelectPercentile where
  percentile : ℚ
  var_thres : List Nat
  my_fs : Option (List Nat)
deriving DecidableEq, Repr

/-- FClassifSelectPercentile.fit, abstracted by the computed supports. -/
def FClassifSelectPercentile.fit (st : FClassifSelectPercentile)
    (varSupport percSupport : List Nat) : FClassifSelectPercentile :=
  { st with var_thres := varSupport, my_fs := some percSupport }

/-- FClassifSelectPercentile.transform. -/
def FClassifSelectPercentile.transform (st : FClassifSelectPercentile)
    (X : Mat) : Option Mat :=
  match st.my_fs with
  | none => none
  | some sel2 => (selectCols st.var_thres X).bind (selectCols sel2)

/-- State of photonai's LassoFeatureSelection transformer: percentile and
alpha hyperparameters plus the internally constructed ModelSelector
(None before fit). -/
structure LassoFeatureSelection where
  percentile : ℚ
  alpha : ℚ
  model_selector : Option ModelSelector
deriving DecidableEq, Repr

/-- LassoFeatureSelection.fit: builds
ModelSelector(Lasso(alpha=alpha), threshold=percentile, percentile=True)
and fits it. The Lasso estimator is abstracted by its parameter
dictionary and its fitted importance scores (the scores argument). -/
def LassoFeatureSelection.fit (st : LassoFeatureSelection) (X : Mat)
    (scores : List ℚ) : Except PyError LassoFeatureSelection :=
  (ModelSelector.fit
      (ModelSelector.init [("alpha", st.alpha)] st.percentile true)
      X scores).map
    (fun ms => { st with model_selector := some ms })

/-- LassoFeatureSelection.transform: delegates to the inner
ModelSelector; calling transform before fit fails (model_selector is
None). -/
def LassoFeatureSelection.transform (st : LassoFeatureSelection)
    (X : Mat) : Option Mat :=
  match st.model_selector with
  | none => none
  | some ms => ms.transform X

/-- LassoFeatureSelection.inverse_transform: delegates to the inner
ModelSelector. -/
def LassoFeatureSelection.inverse_transform (st : LassoFeatureSelection)
    (X : Mat) : Except PyError Mat :=
  match st.model_selector with
  | none => .error .typeError
  | some ms => (ms.inverse_transform X).2

/-- A metric entry of a tested configuration stored in MongoDB
(operation tag, metric name, aggregated value). -/
structure MDBMetric where
  operation : String
  metric_name : String
  value : ℚ
deriving DecidableEq, Repr

/-- A tested configuration stored in MongoDB: its number, its train and
test metric lists and its configuration dictionary. -/
structure MDBConfiguration where
  config_nr : Int
  metrics_train : List MDBMetric
  metrics_test : List MDBMetric
  config_dict : List (String × String)
deriving DecidableEq, Repr

/-- A PlotlyTrace as built by the controller: name, colour, type and the
x and y lists filled by add_x and add_y. -/
structure PlotlyTrace where
  variable_name : String
  trace_color : String
  trace_type : String
  xs : List String
  ys : List ℚ
deriving DecidableEq, Repr

/-- A PlotlyPlot: name, title and its traces. -/
structure PlotlyPlot where
  plot_name : String
  title : String
  traces : List PlotlyTrace
deriving DecidableEq, Repr

/-- The inner metric loop of compare_configurations: for every metric
entry whose operation is FoldOperations.MEAN, add_x(metric name) and
add_y(value) on a fresh bar trace named after the configuration. -/
def buildTrace (traceName : String) (metrics : List MDBMetric) :
    PlotlyTrace :=
  ⟨traceName, "", "bar",
    (metrics.filter (fun m => m.operation == "FoldOperations.MEAN")).map
      (fun m => m.metric_name),
    (metrics.filter (fun m => m.operation == "FoldOperations.MEAN")).map
      (fun m => m.value)⟩

/-- The main loop of compare_configurations over
outer_fold.tested_config_list: a configuration is processed exactly when
the string form of its config_nr occurs in the submitted config_list
form field; for each such configuration the loop appends, in order, the
configuration itself, its train trace, its test trace and its
configuration-dictionary item list (named config_ followed by the
number). -/
def compareLoop (selected : List String) :
    List MDBConfiguration →
    List MDBConfiguration × List PlotlyTrace × List PlotlyTrace ×
      List (String × List (String × String))
  | [] => ([], [], [], [])
  | config :: rest =>
    let r := compareLoop selected rest
    if selected.contains (toString config.config_nr) then
      (config :: r.1,
       buildTrace ("config_" ++ toString config.config_nr)
         config.metrics_train :: r.2.1,
       buildTrace ("config_" ++ toString config.config_nr)
         config.metrics_test :: r.2.2.1,
       ("config_" ++ toString config.config_nr, config.config_dict)
         :: r.2.2.2)
    else r

/-- The arguments handed to render_template for
configuration/compare.html on the success path. -/
structure ComparePage where
  template : String
  plot_training : PlotlyPlot
  plot_test : PlotlyPlot
  config_dict_list : List (String × List (String × String))
deriving DecidableEq, Repr

/-- Exceptions that can escape the try block of the route handler:
pymodm's ValidationError and ConnectionError, or any other exception. -/
inductive WebError where
  | validationError (msg : String)
  | connectionError (msg : String)
  | otherExc (e : String)
deriving DecidableEq, Repr

/-- The HTTP outcome of a Flask route: a rendered page, a raw string
body, or an uncaught exception propagating to the caller. -/
inductive HttpResult where
  | page (p : ComparePage)
  | body (s : String)
  | raised (e : String)
deriving DecidableEq, Repr

/-- The compare_configurations route handler. The database lookup of the
pipeline and outer fold (together with any other exception source inside
the try block before the loop) is abstracted as dbres: on success it
yields the fold's tested_config_list. The handler filters the tested
configurations by the submitted config_list form field, builds both
plots and renders configuration/compare.html; a ValidationError or
ConnectionError is caught and its message string returned as the
response body; any other exception propagates. -/
def compare_configurations (form_config_list : List String)
    (dbres : Except WebError (List MDBConfiguration)) : HttpResult :=
  match dbres with
  | .ok tested =>
    let r := compareLoop form_config_list tested
    .page
      { template := "configuration/compare.html"
        plot_training := ⟨"comparison_metrics_training",
          "train metrics of selected configurations", r.2.1⟩
        plot_test := ⟨"comparison_metrics_test",
          "test metrics of selected configurations", r.2.2.1⟩
        config_dict_list := r.2.2.2 }
  | .error (.validationError m) => .body m
  | .error (.connectionError m) => .body m
  | .error (.otherExc e) => .raised e

/-- Modelled from the spec: the Switch class of photonai.base is not
under src/ (only its caller examples/advanced/heart_failure.py is). Per
the spec a Switch is a pipeline node representing a choice among several
candidate estimators, selected during hyperparameter search. A candidate
is a PipelineElement: a wrapped estimator with its hyperparameter
configurations. -/
structure PipelineElement where
  element_name : String
  configs : List (List (String × ℚ))
deriving DecidableEq, Repr

/-- Modelled from the spec: a Switch holds the candidate estimators
added to it. -/
structure Switch where
  switch_name : String
  elements : List PipelineElement
deriving DecidableEq, Repr

/-- Modelled from the spec: the += operator appends a candidate
estimator to the Switch. -/
def Switch.iadd (sw : Switch) (e : PipelineElement) : Switch :=
  { sw with elements := sw.elements ++ [e] }

/-- Modelled from the spec: a configuration tested for a Switch during
hyperparameter search designates one active candidate (by its position
among the added estimators) together with one hyperparameter
configuration of that candidate. -/
structure SwitchConfig where
  active_index : Nat
  element_config : List (String × ℚ)
deriving DecidableEq, Repr

/-- Modelled from the spec: whether candidate i is the active estimator
of a tested Switch configuration. -/
def SwitchConfig.isActive (cfg : SwitchConfig) (i : Nat) : Bool :=
  i == cfg.active_index

/-- Modelled from the spec: the configurations the hyperparameter search
tests for a Switch, one per candidate estimator and per hyperparameter
configuration of that candidate. -/
def Switch.generateConfigs (sw : Switch) : List SwitchConfig :=
  sw.elements.enum.flatMap
    (fun p => p.2.configs.map (fun c => ⟨p.1, c⟩))

/-- Whether a modelled computation raised a ValueError. -/
def raisesValueError {α : Type} : Except PyError α → Bool
  | .error (.valueError _) => true
  | _ => false

theorem mem_npWhereLt {v : List ℚ} {t : ℚ} {i : Nat} :
    i ∈ npWhereLt v t ↔ i < v.length ∧ v.getD i 0 < t := by
  simp [npWhereLt, List.mem_filter, List.mem_range]

theorem mem_npWhereGe {v : List ℚ} {t : ℚ} {i : Nat} :
    i ∈ npWhereGe v t ↔ i < v.length ∧ t ≤ v.getD i 0 := by
  simp [npWhereGe, List.mem_filter, List.mem_range]

theorem npWhereLt_pairwise (v : List ℚ) (t : ℚ) :
    (npWhereLt v t).Pairwise (· < ·) :=
  List.Pairwise.sublist (List.filter_sublist _) (List.pairwise_lt_range _)

theorem npWhereGe_pairwise (v : List ℚ) (t : ℚ) :
    (npWhereGe v t).Pairwise (· < ·) :=
  List.Pairwise.sublist (List.filter_sublist _) (List.pairwise_lt_range _)

theorem selectCols_eq_some {sel : List Nat} {X : Mat}
    (hb : ∀ i ∈ sel, i < X.ncols) :
    selectCols sel X =
      some ⟨sel.length,
        X.rows.map (fun row => sel.map (fun i => row.getD i 0))⟩ := by
  unfold selectCols
  rw [if_pos]
  exact List.all_eq_true.2 fun i hi => decide_eq_true (hb i hi)

theorem getD_map_range {f : Nat → ℚ} {n j : Nat} (hj : j < n) :
    ((List.range n).map f).getD j 0 = f j := by
  rw [List.getD_eq_getElem?_getD, List.getElem?_map, List.getElem?_range hj]
  rfl

/-- C2: FRegressionFilterPValue.fit delegates the statistical computation
to sklearn's f_regression (its p-value vector enters fit as an opaque
argument) and sets selected_indices to exactly those column indices whose
p-value is strictly less than p_threshold; transform then returns exactly
those columns of its input, in increasing index order. -/
theorem C2_fregression_fit_transform
    (st0 : FRegressionFilterPValue) (X0 : Mat) (pv : List ℚ) (Y : Mat)
    (hb : ∀ i ∈ (st0.fit X0 pv).selected_indices, i < Y.ncols) :
    (∀ i, i ∈ (st0.fit X0 pv).selected_indices ↔
        i < pv.length ∧ pv.getD i 0 < st0.p_threshold)
    ∧ (st0.fit X0 pv).selected_indices.Pairwise (· < ·)
    ∧ (st0.fit X0 pv).transform Y =
        some ⟨(st0.fit X0 pv).selected_indices.length,
          Y.rows.map (fun row =>
            (st0.fit X0 pv).selected_indices.map (fun i => row.getD i 0))⟩ := by
  refine ⟨fun i => ?_, ?_, ?_⟩
  · exact mem_npWhereLt
  · exact npWhereLt_pairwise pv st0.p_threshold
  · exact selectCols_eq_some hb

theorem C2_witness :
    (∀ i ∈ ((FRegressionFilterPValue.init 1).fit (Mat.mk 2 [])
        [0, 2]).selected_indices, i < (Mat.mk 2 [[5, 7]]).ncols)
    ∧ ((∀ i, i ∈ ((FRegressionFilterPValue.init 1).fit (Mat.mk 2 [])
          [0, 2]).selected_indices ↔
          i < ([0, 2] : List ℚ).length ∧
            ([0, 2] : List ℚ).getD i 0 <
              (FRegressionFilterPValue.init 1).p_threshold)
      ∧ ((FRegressionFilterPValue.init 1).fit (Mat.mk 2 [])
          [0, 2]).selected_indices.Pairwise (· < ·)
      ∧ ((FRegressionFilterPValue.init 1).fit (Mat.mk 2 [])
            [0, 2]).transform (Mat.mk 2 [[5, 7]]) =
          some ⟨(((FRegressionFilterPValue.init 1).fit (Mat.mk 2 [])
              [0, 2]).selected_indices).length,
            (Mat.mk 2 [[5, 7]]).rows.map (fun row =>
              (((FRegressionFilterPValue.init 1).fit (Mat.mk 2 [])
                [0, 2]).selected_indices).map
                  (fun i => row.getD i 0))⟩) :=
  ⟨by decide, C2_fregression_fit_transform
    (FRegressionFilterPValue.init 1) (Mat.mk 2 []) [0, 2]
    (Mat.mk 2 [[5, 7]]) (by decide)⟩

theorem listGetD_eq_get {α : Type} {l : List α} {n : Nat} {d : α}
    (h : n < l.length) : l.getD n d = l.get ⟨n, h⟩ := by
  rw [List.getD_eq_getElem?_getD, List.getElem?_eq_getElem h]
  rfl

theorem rows_selectCols {sel : List Nat} {X Z : Mat}
    (h : selectCols sel X = some Z) :
    Z = ⟨sel.length, X.rows.map (fun row => sel.map (fun i => row.getD i 0))⟩ := by
  unfold selectCols at h
  split at h
  · injection h with h
    exact h.symm
  · exact absurd h (by simp)

theorem modelSelector_fit_ok_spec {ms0 ms : ModelSelector} {X : Mat}
    {scores : List ℚ} (h : ms0.fit X scores = .ok ms) :
    ms.threshold = ms0.threshold ∧ ms.percentile = ms0.percentile ∧
      ms.importance_scores = scores ∧
      ms.n_original_features = some X.ncols ∧
      ms.estimator_params = ms0.estimator_params ∧
      (∀ i ∈ ms.selected_indices, i < scores.length) ∧
      ms.selected_indices.Pairwise (· < ·) := by
  simp only [ModelSelector.fit] at h
  split at h
  · injection h with h
    subst h
    refine ⟨rfl, rfl, rfl, rfl, rfl, ?_, npWhereGe_pairwise _ _⟩
    exact fun i hi => (mem_npWhereGe.1 hi).1
  · split at h
    · exact absurd h (by simp)
    · split at h
      · injection h with h
        subst h
        refine ⟨rfl, rfl, rfl, rfl, rfl, ?_, npWhereGe_pairwise _ _⟩
        exact fun i hi => (mem_npWhereGe.1 hi).1
      · exact absurd h (by simp)

theorem modelSelector_fit_percentile_nonempty {ms0 ms : ModelSelector}
    {X : Mat} {scores : List ℚ} (hp : ms0.percentile = true)
    (h : ms0.fit X scores = .ok ms) :
    ms.selected_indices ≠ [] := by
  simp only [ModelSelector.fit] at h
  split at h
  · next hcond =>
    rw [hp] at hcond
    simp at hcond
  · split at h
    · exact absurd h (by simp)
    · split at h
      · next idx hidx =>
        injection h with h
        subst h
        simp only
        have hmem : (scores.insertionSort (· ≤ ·)).get ⟨_, hidx⟩ ∈ scores :=
          (List.perm_insertionSort (· ≤ ·) scores).subset
            (List.get_mem _ _ hidx)
        rcases List.mem_iff_get.1 hmem with ⟨k, hk⟩
        apply List.ne_nil_of_mem (a := k.1)
        refine mem_npWhereGe.2 ⟨k.2, ?_⟩
        rw [listGetD_eq_get k.2, hk]
      · exact absurd h (by simp)

theorem scatterRow_map_getD (sel : List Nat) (n : Nat) (row : List ℚ)
    (j : Nat) (hj : j < n) :
    (scatterRow sel n (sel.map (fun i => row.getD i 0))).getD j 0 =
      if j ∈ sel then row.getD j 0 else 0 := by
  unfold scatterRow
  rw [getD_map_range hj]
  by_cases hmem : j ∈ sel
  · rw [if_pos hmem, if_pos hmem]
    have hk : sel.indexOf j < sel.length := List.indexOf_lt_length.2 hmem
    have hk2 : sel.indexOf j < (sel.map (fun i => row.getD i 0)).length := by
      rw [List.length_map]; exact hk
    rw [listGetD_eq_get hk2]
    have : (sel.map (fun i => row.getD i 0)).get ⟨sel.indexOf j, hk2⟩ =
        row.getD (sel.get ⟨sel.indexOf j, hk⟩) 0 := by
      simp [List.get_map]
    rw [this, List.indexOf_get hk]
  · rw [if_neg hmem, if_neg hmem]

theorem mat_roundtrip_entry (sel : List Nat) (n : Nat) (X : Mat)
    (r j : Nat) (hj : j < n) :
    (Mat.mk n ((X.rows.map (fun row => sel.map (fun i => row.getD i 0))).map
        (scatterRow sel n))).entry r j
      = if j ∈ sel then X.entry r j else 0 := by
  unfold Mat.entry
  simp only [List.map_map]
  by_cases hr : r < X.rows.length
  · have hr2 : r < (X.rows.map
        ((scatterRow sel n) ∘ fun row => sel.map (fun i => row.getD i 0))).length := by
      rw [List.length_map]; exact hr
    rw [listGetD_eq_get hr2, List.get_map, listGetD_eq_get hr]
    exact scatterRow_map_getD sel n (X.rows.get ⟨r, hr⟩) j hj
  · have h1 : (X.rows.map
        ((scatterRow sel n) ∘ fun row => sel.map (fun i => row.getD i 0))).getD r [] = [] := by
      rw [List.getD_eq_getElem?_getD, List.getElem?_eq_none]
      · rfl
      · rw [List.length_map]; exact Nat.le_of_not_lt hr
    have h2 : X.rows.getD r [] = [] := by
      rw [List.getD_eq_getElem?_getD, List.getElem?_eq_none (Nat.le_of_not_lt hr)]
      rfl
    rw [h1, h2]
    simp

theorem fregression_fit_spec (st : FRegressionFilterPValue) (X : Mat)
    (pv : List ℚ) :
    (∀ i ∈ (st.fit X pv).selected_indices, i < pv.length) ∧
      (st.fit X pv).n_original_features = some X.ncols ∧
      (st.fit X pv).p_threshold = st.p_threshold := by
  refine ⟨?_, rfl, rfl⟩
  exact fun i hi => (mem_npWhereLt.1 hi).1

/-- C4: under the scikit-learn contract (fit called on data with d
features, f_regression and the estimator importances yielding one value
per feature), every index selected by fit of FRegressionFilterPValue and
of ModelSelector is a valid column index of any input with d columns,
and transform returns a value (it never raises). -/
theorem C4_transform_never_raises
    (st0 : FRegressionFilterPValue) (X0 : Mat) (pv : List ℚ) (Y : Mat)
    (hpv : pv.length = X0.ncols) (hY : Y.ncols = X0.ncols)
    (ms0 ms : ModelSelector) (Xm : Mat) (scores : List ℚ) (Ym : Mat)
    (hfit : ms0.fit Xm scores = .ok ms)
    (hsc : scores.length = Xm.ncols) (hYm : Ym.ncols = Xm.ncols) :
    (∀ i ∈ (st0.fit X0 pv).selected_indices, i < Y.ncols)
    ∧ (∃ Z, (st0.fit X0 pv).transform Y = some Z)
    ∧ (∀ i ∈ ms.selected_indices, i < Ym.ncols)
    ∧ (∃ Z, ms.transform Ym = some Z) := by
  have hbF : ∀ i ∈ (st0.fit X0 pv).selected_indices, i < Y.ncols := by
    intro i hi
    have := (fregression_fit_spec st0 X0 pv).1 i hi
    omega
  have hbM : ∀ i ∈ ms.selected_indices, i < Ym.ncols := by
    intro i hi
    have := (modelSelector_fit_ok_spec hfit).2.2.2.2.2.1 i hi
    omega
  refine ⟨hbF, ⟨_, selectCols_eq_some hbF⟩, hbM, ?_⟩
  simp only [ModelSelector.transform, selectCols_eq_some hbM]
  split
  · exact ⟨Ym, rfl⟩
  · exact ⟨_, rfl⟩

theorem C4_witness :
    (([0, 2] : List ℚ).length = (Mat.mk 2 []).ncols
    ∧ (Mat.mk 2 [[3, 4]]).ncols = (Mat.mk 2 []).ncols
    ∧ (ModelSelector.init [] 0 false).fit (Mat.mk 2 []) [1, 0] =
        .ok (ModelSelector.mk 0 false [0, 1] [1, 0] (some 2) [])
    ∧ ([1, 0] : List ℚ).length = (Mat.mk 2 []).ncols
    ∧ (Mat.mk 2 [[5, 6]]).ncols = (Mat.mk 2 []).ncols)
    ∧ ((∀ i ∈ ((FRegressionFilterPValue.init 1).fit (Mat.mk 2 [])
          [0, 2]).selected_indices, i < (Mat.mk 2 [[3, 4]]).ncols)
      ∧ (∃ Z, ((FRegressionFilterPValue.init 1).fit (Mat.mk 2 [])
          [0, 2]).transform (Mat.mk 2 [[3, 4]]) = some Z)
      ∧ (∀ i ∈ (ModelSelector.mk 0 false [0, 1] [1, 0] (some 2)
          []).selected_indices, i < (Mat.mk 2 [[5, 6]]).ncols)
      ∧ (∃ Z, (ModelSelector.mk 0 false [0, 1] [1, 0] (some 2)
          []).transform (Mat.mk 2 [[5, 6]]) = some Z)) :=
  ⟨⟨by decide, by decide, by decide, by decide, by decide⟩,
    C4_transform_never_raises (FRegressionFilterPValue.init 1) (Mat.mk 2 [])
      [0, 2] (Mat.mk 2 [[3, 4]]) (by decide) (by decide)
      (ModelSelector.init [] 0 false)
      (ModelSelector.mk 0 false [0, 1] [1, 0] (some 2) [])
      (Mat.mk 2 []) [1, 0] (Mat.mk 2 [[5, 6]])
      (by decide) (by decide) (by decide)⟩

theorem freg_inverse_valueerror_iff {st : FRegressionFilterPValue}
    {Y : Mat} {n : Nat} (hn : st.n_original_features = some n)
    (hb : ∀ i ∈ st.selected_indices, i < n) :
    raisesValueError (st.inverse_transform Y).2 = true ↔
      Y.ncols ≠ st.selected_indices.length := by
  unfold FRegressionFilterPValue.inverse_transform
  by_cases hY : Y.ncols ≠ st.selected_indices.length
  · simp only [if_pos hY]
    simp [raisesValueError, hY]
  · simp only [if_neg hY, hn]
    rw [if_pos (List.all_eq_true.2 fun i hi => decide_eq_true (hb i hi))]
    simp [raisesValueError, hY]

theorem ms_inverse_valueerror_iff {ms : ModelSelector}
    {Y : Mat} {n : Nat} (hn : ms.n_original_features = some n)
    (hb : ∀ i ∈ ms.selected_indices, i < n) :
    raisesValueError (ms.inverse_transform Y).2 = true ↔
      Y.ncols ≠ ms.selected_indices.length := by
  unfold ModelSelector.inverse_transform
  by_cases hY : Y.ncols ≠ ms.selected_indices.length
  · simp only [if_pos hY]
    simp [raisesValueError, hY]
  · simp only [if_neg hY, hn]
    rw [if_pos (List.all_eq_true.2 fun i hi => decide_eq_true (hb i hi))]
    simp [raisesValueError, hY]

/-- C3: for every fitted FRegressionFilterPValue and every fitted
ModelSelector (fit on sklearn-consistent data: one p-value, one
importance score per column), inverse_transform raises ValueError
exactly when the input's column count differs from the number of indices
selected at fit (the exception is the returned error value, surfaced to
the caller), and the transformer's state is returned unchanged in every
case, error included. -/
theorem C3_inverse_transform_error_handling
    (st0 : FRegressionFilterPValue) (X0 : Mat) (pv : List ℚ) (Y : Mat)
    (hpv : pv.length = X0.ncols)
    (ms0 ms : ModelSelector) (Xm : Mat) (scores : List ℚ) (Ym : Mat)
    (hfit : ms0.fit Xm scores = .ok ms)
    (hsc : scores.length = Xm.ncols) :
    (raisesValueError (((st0.fit X0 pv).inverse_transform Y)).2 = true ↔
        Y.ncols ≠ (st0.fit X0 pv).selected_indices.length)
    ∧ ((st0.fit X0 pv).inverse_transform Y).1 = st0.fit X0 pv
    ∧ (raisesValueError ((ms.inverse_transform Ym)).2 = true ↔
        Ym.ncols ≠ ms.selected_indices.length)
    ∧ (ms.inverse_transform Ym).1 = ms := by
  refine ⟨?_, rfl, ?_, rfl⟩
  · refine freg_inverse_valueerror_iff
      (fregression_fit_spec st0 X0 pv).2.1 (fun i hi => ?_)
    have := (fregression_fit_spec st0 X0 pv).1 i hi
    omega
  · refine ms_inverse_valueerror_iff
      (modelSelector_fit_ok_spec hfit).2.2.2.1 (fun i hi => ?_)
    have := (modelSelector_fit_ok_spec hfit).2.2.2.2.2.1 i hi
    omega

theorem C3_witness :
    (([0, 2] : List ℚ).length = (Mat.mk 2 []).ncols
    ∧ (ModelSelector.init [] 0 false).fit (Mat.mk 2 []) [1, 0] =
        .ok (ModelSelector.mk 0 false [0, 1] [1, 0] (some 2) [])
    ∧ ([1, 0] : List ℚ).length = (Mat.mk 2 []).ncols)
    ∧ ((raisesValueError ((((FRegressionFilterPValue.init 1).fit
          (Mat.mk 2 []) [0, 2]).inverse_transform (Mat.mk 3 []))).2 = true ↔
        (Mat.mk 3 []).ncols ≠ ((FRegressionFilterPValue.init 1).fit
          (Mat.mk 2 []) [0, 2]).selected_indices.length)
      ∧ (((FRegressionFilterPValue.init 1).fit (Mat.mk 2 [])
          [0, 2]).inverse_transform (Mat.mk 3 [])).1 =
          (FRegressionFilterPValue.init 1).fit (Mat.mk 2 []) [0, 2]
      ∧ (raisesValueError (((ModelSelector.mk 0 false [0, 1] [1, 0]
            (some 2) []).inverse_transform (Mat.mk 2 [[7, 8]]))).2 = true ↔
          (Mat.mk 2 [[7, 8]]).ncols ≠ (ModelSelector.mk 0 false [0, 1]
            [1, 0] (some 2) []).selected_indices.length)
      ∧ ((ModelSelector.mk 0 false [0, 1] [1, 0] (some 2)
          []).inverse_transform (Mat.mk 2 [[7, 8]])).1 =
          ModelSelector.mk 0 false [0, 1] [1, 0] (some 2) []) :=
  ⟨⟨by decide, by decide, by decide⟩,
    C3_inverse_transform_error_handling (FRegressionFilterPValue.init 1)
      (Mat.mk 2 []) [0, 2] (Mat.mk 3 []) (by decide)
      (ModelSelector.init [] 0 false)
      (ModelSelector.mk 0 false [0, 1] [1, 0] (some 2) [])
      (Mat.mk 2 []) [1, 0] (Mat.mk 2 [[7, 8]]) (by decide) (by decide)⟩

/-- C6: for every fitted FRegressionFilterPValue, and every fitted
ModelSelector whose selection is non-empty, and every input X with the
column count seen at fit, inverse_transform(transform(X)) succeeds,
has exactly n_original_features columns, agrees with X on every selected
column and is zero on every non-selected column. -/
theorem C6_roundtrip_zero_fill
    (st0 : FRegressionFilterPValue) (X0 : Mat) (pv : List ℚ) (X : Mat)
    (hpv : pv.length = X0.ncols) (hX : X.ncols = X0.ncols)
    (ms0 ms : ModelSelector) (Xm : Mat) (scores : List ℚ) (Y : Mat)
    (hfit : ms0.fit Xm scores = .ok ms) (hsc : scores.length = Xm.ncols)
    (hY : Y.ncols = Xm.ncols) (hne : ms.selected_indices ≠ []) :
    (∃ Z W, (st0.fit X0 pv).transform X = some Z
      ∧ ((st0.fit X0 pv).inverse_transform Z).2 = .ok W
      ∧ W.ncols = X0.ncols
      ∧ ∀ r j, j < X0.ncols →
          W.entry r j =
            if j ∈ (st0.fit X0 pv).selected_indices then X.entry r j else 0)
    ∧ (∃ Z W, ms.transform Y = some Z
      ∧ (ms.inverse_transform Z).2 = .ok W
      ∧ W.ncols = Xm.ncols
      ∧ ∀ r j, j < Xm.ncols →
          W.entry r j = if j ∈ ms.selected_indices then Y.entry r j else 0) := by
  constructor
  · have hbF : ∀ i ∈ (st0.fit X0 pv).selected_indices, i < X.ncols := by
      intro i hi
      have := (fregression_fit_spec st0 X0 pv).1 i hi
      omega
    have hbF0 : ∀ i ∈ (st0.fit X0 pv).selected_indices, i < X0.ncols := by
      intro i hi
      have := (fregression_fit_spec st0 X0 pv).1 i hi
      omega
    refine ⟨⟨(st0.fit X0 pv).selected_indices.length,
        X.rows.map (fun row =>
          (st0.fit X0 pv).selected_indices.map (fun i => row.getD i 0))⟩,
      ⟨X0.ncols,
        (X.rows.map (fun row =>
          (st0.fit X0 pv).selected_indices.map (fun i => row.getD i 0))).map
            (scatterRow (st0.fit X0 pv).selected_indices X0.ncols)⟩,
      ?_, ?_, rfl, ?_⟩
    · unfold FRegressionFilterPValue.transform
      exact selectCols_eq_some hbF
    · unfold FRegressionFilterPValue.inverse_transform
      simp only [(fregression_fit_spec st0 X0 pv).2.1]
      rw [if_neg (by simp)]
      rw [if_pos (List.all_eq_true.2 fun i hi => decide_eq_true (hbF0 i hi))]
    · intro r j hj
      exact mat_roundtrip_entry _ X0.ncols X r j hj
  · have hsp := modelSelector_fit_ok_spec hfit
    have hbM : ∀ i ∈ ms.selected_indices, i < Y.ncols := by
      intro i hi
      have := hsp.2.2.2.2.2.1 i hi
      omega
    have hbM0 : ∀ i ∈ ms.selected_indices, i < Xm.ncols := by
      intro i hi
      have := hsp.2.2.2.2.2.1 i hi
      omega
    refine ⟨⟨ms.selected_indices.length,
        Y.rows.map (fun row =>
          ms.selected_indices.map (fun i => row.getD i 0))⟩,
      ⟨Xm.ncols,
        (Y.rows.map (fun row =>
          ms.selected_indices.map (fun i => row.getD i 0))).map
            (scatterRow ms.selected_indices Xm.ncols)⟩,
      ?_, ?_, rfl, ?_⟩
    · simp only [ModelSelector.transform, selectCols_eq_some hbM]
      have hlen : ¬ (ms.selected_indices.length = 0) := by
        simpa [List.length_eq_zero] using hne
      rw [if_neg hlen]
    · unfold ModelSelector.inverse_transform
      simp only [hsp.2.2.2.1]
      rw [if_neg (by simp)]
      rw [if_pos (List.all_eq_true.2 fun i hi => decide_eq_true (hbM0 i hi))]
    · intro r j hj
      exact mat_roundtrip_entry _ Xm.ncols Y r j hj

theorem C6_witness :
    (([0, 2] : List ℚ).length = (Mat.mk 2 []).ncols
    ∧ (Mat.mk 2 [[3, 4]]).ncols = (Mat.mk 2 []).ncols
    ∧ (ModelSelector.init [] 0 false).fit (Mat.mk 2 []) [1, 0] =
        .ok (ModelSelector.mk 0 false [0, 1] [1, 0] (some 2) [])
    ∧ ([1, 0] : List ℚ).length = (Mat.mk 2 []).ncols
    ∧ (Mat.mk 2 [[5, 6]]).ncols = (Mat.mk 2 []).ncols
    ∧ (ModelSelector.mk 0 false [0, 1] [1, 0] (some 2)
        []).selected_indices ≠ [])
    ∧ ((∃ Z W, ((FRegressionFilterPValue.init 1).fit (Mat.mk 2 [])
          [0, 2]).transform (Mat.mk 2 [[3, 4]]) = some Z
        ∧ (((FRegressionFilterPValue.init 1).fit (Mat.mk 2 [])
            [0, 2]).inverse_transform Z).2 = .ok W
        ∧ W.ncols = (Mat.mk 2 []).ncols
        ∧ ∀ r j, j < (Mat.mk 2 []).ncols →
            W.entry r j =
              if j ∈ ((FRegressionFilterPValue.init 1).fit (Mat.mk 2 [])
                  [0, 2]).selected_indices
                then (Mat.mk 2 [[3, 4]]).entry r j else 0)
      ∧ (∃ Z W, (ModelSelector.mk 0 false [0, 1] [1, 0] (some 2)
            []).transform (Mat.mk 2 [[5, 6]]) = some Z
        ∧ ((ModelSelector.mk 0 false [0, 1] [1, 0] (some 2)
            []).inverse_transform Z).2 = .ok W
        ∧ W.ncols = (Mat.mk 2 []).ncols
        ∧ ∀ r j, j < (Mat.mk 2 []).ncols →
            W.entry r j =
              if j ∈ (ModelSelector.mk 0 false [0, 1] [1, 0] (some 2)
                  []).selected_indices
                then (Mat.mk 2 [[5, 6]]).entry r j else 0)) :=
  ⟨⟨by decide, by decide, by decide, by decide, by decide, by decide⟩,
    C6_roundtrip_zero_fill (FRegressionFilterPValue.init 1) (Mat.mk 2 [])
      [0, 2] (Mat.mk 2 [[3, 4]]) (by decide) (by decide)
      (ModelSelector.init [] 0 false)
      (ModelSelector.mk 0 false [0, 1] [1, 0] (some 2) [])
      (Mat.mk 2 []) [1, 0] (Mat.mk 2 [[5, 6]])
      (by decide) (by decide) (by decide) (by decide)⟩

/-- C7: ModelSelector.fit with percentile=True raises ValueError whenever
threshold > 1; and for every threshold with 0 < threshold <= 1 and a
non-empty importance-score vector (one score per column of X, per the
sklearn contract), the sorted-array index floor((1 - threshold) *
n_features) is in range and the resulting selected_indices is non-empty
(a feature of maximal importance is always selected). -/
theorem C7_percentile_fit_safety
    (ms0 : ModelSelector) (X : Mat) (scores : List ℚ)
    (hperc : ms0.percentile = true) (hsc : scores.length = X.ncols) :
    (1 < ms0.threshold →
      ms0.fit X scores =
        .error (.valueError "Threshold should not be greater than 1"))
    ∧ (0 < ms0.threshold → ms0.threshold ≤ 1 → scores ≠ [] →
        ((((1 - ms0.threshold) * (X.ncols : ℚ)).floor.toNat <
            (scores.insertionSort (· ≤ ·)).length)
          ∧ ∃ ms, ms0.fit X scores = .ok ms ∧ ms.selected_indices ≠ [])) := by
  constructor
  · intro hgt
    simp [ModelSelector.fit, hperc, hgt]
  · intro hpos hle hne
    have hd : 0 < X.ncols := by
      have := List.length_pos.2 hne
      omega
    have hnn : (0 : ℚ) ≤ (1 - ms0.threshold) * (X.ncols : ℚ) := by
      apply mul_nonneg
      · linarith
      · positivity
    have h0 : (0 : ℤ) ≤ ((1 - ms0.threshold) * (X.ncols : ℚ)).floor :=
      Rat.le_floor.2 (by exact_mod_cast hnn)
    have hlt : ((1 - ms0.threshold) * (X.ncols : ℚ)).floor < (X.ncols : ℤ) := by
      by_contra hcon
      push_neg at hcon
      have hle2 := Rat.le_floor.1 hcon
      have hx : (0 : ℚ) < (X.ncols : ℚ) := by exact_mod_cast hd
      have hcast : ((X.ncols : ℤ) : ℚ) = (X.ncols : ℚ) := by push_cast; rfl
      rw [hcast] at hle2
      nlinarith
    have hidx : ((1 - ms0.threshold) * (X.ncols : ℚ)).floor.toNat <
        (scores.insertionSort (· ≤ ·)).length := by
      rw [List.length_insertionSort, hsc]
      rw [Int.toNat_lt h0]
      exact hlt
    refine ⟨hidx, ?_⟩
    have h1 : ¬ (1 < ms0.threshold) := not_lt.2 hle
    have hfit : ∃ ms, ms0.fit X scores = .ok ms := by
      simp only [ModelSelector.fit, hperc, Bool.not_true, Bool.false_eq_true,
        if_false, h1, dif_pos hidx]
      exact ⟨_, rfl⟩
    rcases hfit with ⟨ms, hms⟩
    exact ⟨ms, hms, modelSelector_fit_percentile_nonempty hperc hms⟩

theorem C7_witness :
    ((ModelSelector.init [] 1 true).percentile = true
    ∧ ([3] : List ℚ).length = (Mat.mk 1 []).ncols)
    ∧ ((1 < (ModelSelector.init [] 1 true).threshold →
        (ModelSelector.init [] 1 true).fit (Mat.mk 1 []) [3] =
          .error (.valueError "Threshold should not be greater than 1"))
      ∧ (0 < (ModelSelector.init [] 1 true).threshold →
          (ModelSelector.init [] 1 true).threshold ≤ 1 → ([3] : List ℚ) ≠ [] →
          ((((1 - (ModelSelector.init [] 1 true).threshold) *
              ((Mat.mk 1 []).ncols : ℚ)).floor.toNat <
              (([3] : List ℚ).insertionSort (· ≤ ·)).length)
            ∧ ∃ ms, (ModelSelector.init [] 1 true).fit (Mat.mk 1 []) [3] =
                .ok ms ∧ ms.selected_indices ≠ []))) :=
  ⟨⟨by decide, by decide⟩,
    C7_percentile_fit_safety (ModelSelector.init [] 1 true) (Mat.mk 1 [])
      [3] (by decide) (by decide)⟩

theorem ms_transform_nonempty {ms : ModelSelector} {Y : Mat}
    (hb : ∀ i ∈ ms.selected_indices, i < Y.ncols)
    (hne : ms.selected_indices ≠ []) :
    ms.transform Y = some ⟨ms.selected_indices.length,
      Y.rows.map (fun row =>
        ms.selected_indices.map (fun i => row.getD i 0))⟩ := by
  simp only [ModelSelector.transform, selectCols_eq_some hb]
  have hlen : ¬ (ms.selected_indices.length = 0) := by
    simpa [List.length_eq_zero] using hne
  rw [if_neg hlen]

theorem rows_gather_length (sel : List Nat) (rows : List (List ℚ)) :
    ∀ row ∈ rows.map (fun row => sel.map (fun i => row.getD i 0)),
      row.length = sel.length := by
  intro row hr
  rcases List.mem_map.1 hr with ⟨r0, _, rfl⟩
  exact List.length_map _ _

theorem lasso_fit_ok_spec {lf0 lf : LassoFeatureSelection} {X : Mat}
    {scores : List ℚ} (h : lf0.fit X scores = .ok lf) :
    ∃ msl, (ModelSelector.init [("alpha", lf0.alpha)] lf0.percentile
        true).fit X scores = .ok msl
      ∧ lf.model_selector = some msl := by
  unfold LassoFeatureSelection.fit at h
  cases hm : (ModelSelector.init [("alpha", lf0.alpha)] lf0.percentile
      true).fit X scores with
  | ok msl =>
    rw [hm] at h
    injection h with h
    exact ⟨msl, rfl, by rw [← h]⟩
  | error e =>
    rw [hm] at h
    exact absurd h (by simp [Except.map])

/-- C1 counterexample: a ModelSelector fitted with percentile=False and
threshold 1 on importance scores [0, 0] selects zero indices, yet its
transform of a 2-column input returns that input unchanged, with 2
columns rather than the 0 selected at fit. -/
theorem C1_counterexample :
    (ModelSelector.init [] 1 false).fit (Mat.mk 2 [[0, 0]]) [0, 0] =
      .ok (ModelSelector.mk 1 false [] [0, 0] (some 2) [])
    ∧ (ModelSelector.mk 1 false [] [0, 0] (some 2) []).transform
        (Mat.mk 2 [[1, 2]]) = some (Mat.mk 2 [[1, 2]])
    ∧ (Mat.mk 2 [[1, 2]]).ncols ≠
        ((ModelSelector.mk 1 false [] [0, 0] (some 2)
          []).selected_indices).length :=
  ⟨by decide, by decide, by decide⟩

/-- C1 (amended): after fit on data with d features, transform applied
to any input with d columns returns an array whose column count, and the
length of each of its rows, equals the number of indices selected during
fit, the same for every such input, for FRegressionFilterPValue,
FRegressionSelectPercentile, FClassifSelectPercentile and
LassoFeatureSelection; for ModelSelector this holds exactly when the
selection is non-empty, and with an empty selection transform instead
falls back to returning its input unchanged. -/
theorem C1_amended_feature_count
    (st0 : FRegressionFilterPValue) (X0 : Mat) (pv : List ℚ) (Y : Mat)
    (hpv : pv.length = X0.ncols) (hY : Y.ncols = X0.ncols)
    (sp : FRegressionSelectPercentile) (sel2 : List Nat) (Yp : Mat)
    (hsp : sp.my_fs = some sel2)
    (hb1 : ∀ i ∈ sp.var_thres, i < Yp.ncols)
    (hb2 : ∀ i ∈ sel2, i < sp.var_thres.length)
    (cl : FClassifSelectPercentile) (selc : List Nat) (Yc : Mat)
    (hcl : cl.my_fs = some selc)
    (hb1c : ∀ i ∈ cl.var_thres, i < Yc.ncols)
    (hb2c : ∀ i ∈ selc, i < cl.var_thres.length)
    (ms0 ms : ModelSelector) (Xm : Mat) (scores : List ℚ) (Ym : Mat)
    (hfit : ms0.fit Xm scores = .ok ms) (hsc : scores.length = Xm.ncols)
    (hYm : Ym.ncols = Xm.ncols)
    (lf0 lf : LassoFeatureSelection) (Xl : Mat) (scoresl : List ℚ)
    (Yl : Mat) (hfitl : lf0.fit Xl scoresl = .ok lf)
    (hscl : scoresl.length = Xl.ncols) (hYl : Yl.ncols = Xl.ncols) :
    (∃ Z, (st0.fit X0 pv).transform Y = some Z
      ∧ Z.ncols = (st0.fit X0 pv).selected_indices.length
      ∧ ∀ row ∈ Z.rows,
          row.length = (st0.fit X0 pv).selected_indices.length)
    ∧ (∃ Z, sp.transform Yp = some Z ∧ Z.ncols = sel2.length
      ∧ ∀ row ∈ Z.rows, row.length = sel2.length)
    ∧ (∃ Z, cl.transform Yc = some Z ∧ Z.ncols = selc.length
      ∧ ∀ row ∈ Z.rows, row.length = selc.length)
    ∧ (ms.selected_indices ≠ [] →
        ∃ Z, ms.transform Ym = some Z
          ∧ Z.ncols = ms.selected_indices.length
          ∧ ∀ row ∈ Z.rows, row.length = ms.selected_indices.length)
    ∧ (ms.selected_indices = [] → ms.transform Ym = some Ym)
    ∧ (∃ msl Z, lf.model_selector = some msl
        ∧ lf.transform Yl = some Z
        ∧ Z.ncols = msl.selected_indices.length
        ∧ ∀ row ∈ Z.rows, row.length = msl.selected_indices.length) := by
  refine ⟨?_, ?_, ?_, ?_, ?_, ?_⟩
  · have hbF : ∀ i ∈ (st0.fit X0 pv).selected_indices, i < Y.ncols := by
      intro i hi
      have := (fregression_fit_spec st0 X0 pv).1 i hi
      omega
    have ht : (st0.fit X0 pv).transform Y =
        some ⟨(st0.fit X0 pv).selected_indices.length,
          Y.rows.map (fun row =>
            (st0.fit X0 pv).selected_indices.map (fun i => row.getD i 0))⟩ := by
      unfold FRegressionFilterPValue.transform
      exact selectCols_eq_some hbF
    exact ⟨_, ht, rfl, rows_gather_length _ _⟩
  · have ht : sp.transform Yp =
        some ⟨sel2.length,
          (Yp.rows.map (fun row =>
            sp.var_thres.map (fun i => row.getD i 0))).map (fun row =>
              sel2.map (fun i => row.getD i 0))⟩ := by
      unfold FRegressionSelectPercentile.transform
      simp only [hsp, selectCols_eq_some hb1, Option.some_bind]
      exact selectCols_eq_some hb2
    exact ⟨_, ht, rfl, rows_gather_length _ _⟩
  · have ht : cl.transform Yc =
        some ⟨selc.length,
          (Yc.rows.map (fun row =>
            cl.var_thres.map (fun i => row.getD i 0))).map (fun row =>
              selc.map (fun i => row.getD i 0))⟩ := by
      unfold FClassifSelectPercentile.transform
      simp only [hcl, selectCols_eq_some hb1c, Option.some_bind]
      exact selectCols_eq_some hb2c
    exact ⟨_, ht, rfl, rows_gather_length _ _⟩
  · intro hne
    have hbM : ∀ i ∈ ms.selected_indices, i < Ym.ncols := by
      intro i hi
      have := (modelSelector_fit_ok_spec hfit).2.2.2.2.2.1 i hi
      omega
    have ht := ms_transform_nonempty hbM hne
    exact ⟨_, ht, rfl, rows_gather_length _ _⟩
  · intro hemp
    have h0 : selectCols ms.selected_indices Ym =
        some ⟨ms.selected_indices.length,
          Ym.rows.map (fun row =>
            ms.selected_indices.map (fun i => row.getD i 0))⟩ :=
      selectCols_eq_some (by rw [hemp]; intro i hi; cases hi)
    simp only [ModelSelector.transform, h0]
    rw [if_pos (by simp [hemp])]
  · rcases lasso_fit_ok_spec hfitl with ⟨msl, hinner, hmsl⟩
    have hbL : ∀ i ∈ msl.selected_indices, i < Yl.ncols := by
      intro i hi
      have := (modelSelector_fit_ok_spec hinner).2.2.2.2.2.1 i hi
      omega
    have hneL : msl.selected_indices ≠ [] :=
      modelSelector_fit_percentile_nonempty rfl hinner
    have ht : lf.transform Yl =
        some ⟨msl.selected_indices.length,
          Yl.rows.map (fun row =>
            msl.selected_indices.map (fun i => row.getD i 0))⟩ := by
      unfold LassoFeatureSelection.transform
      rw [hmsl]
      exact ms_transform_nonempty hbL hneL
    exact ⟨msl, _, hmsl, ht, rfl, rows_gather_length _ _⟩

theorem lasso_fit_example :
    (LassoFeatureSelection.mk 1 1 none).fit (Mat.mk 1 []) [2] =
      .ok (LassoFeatureSelection.mk 1 1
        (some (ModelSelector.mk 1 true [0] [2] (some 1) [("alpha", 1)]))) := by
  simp only [LassoFeatureSelection.fit, ModelSelector.init, ModelSelector.fit,
    show ((1:ℚ) - 1) * ((1:ℕ):ℚ) = 0 from by norm_num]
  decide

theorem C1_witness :
    (([0] : List ℚ).length = (Mat.mk 1 []).ncols
    ∧ (Mat.mk 1 [[4]]).ncols = (Mat.mk 1 []).ncols
    ∧ (FRegressionSelectPercentile.mk 10 [0] (some [0])).my_fs = some [0]
    ∧ (∀ i ∈ (FRegressionSelectPercentile.mk 10 [0] (some [0])).var_thres,
        i < (Mat.mk 1 [[2]]).ncols)
    ∧ (∀ i ∈ ([0] : List Nat),
        i < (FRegressionSelectPercentile.mk 10 [0]
          (some [0])).var_thres.length)
    ∧ (ModelSelector.init [] 0 false).fit (Mat.mk 1 []) [1] =
        .ok (ModelSelector.mk 0 false [0] [1] (some 1) [])
    ∧ ([1] : List ℚ).length = (Mat.mk 1 []).ncols
    ∧ (Mat.mk 1 [[5]]).ncols = (Mat.mk 1 []).ncols
    ∧ (LassoFeatureSelection.mk 1 1 none).fit (Mat.mk 1 []) [2] =
        .ok (LassoFeatureSelection.mk 1 1
          (some (ModelSelector.mk 1 true [0] [2] (some 1) [("alpha", 1)])))
    ∧ ([2] : List ℚ).length = (Mat.mk 1 []).ncols
    ∧ (Mat.mk 1 [[6]]).ncols = (Mat.mk 1 []).ncols)
    ∧ ((∃ Z, ((FRegressionFilterPValue.init 1).fit (Mat.mk 1 [])
          [0]).transform (Mat.mk 1 [[4]]) = some Z
        ∧ Z.ncols = ((FRegressionFilterPValue.init 1).fit (Mat.mk 1 [])
            [0]).selected_indices.length
        ∧ ∀ row ∈ Z.rows,
            row.length = ((FRegressionFilterPValue.init 1).fit
              (Mat.mk 1 []) [0]).selected_indices.length)
      ∧ (∃ Z, (FRegressionSelectPercentile.mk 10 [0] (some [0])).transform
            (Mat.mk 1 [[2]]) = some Z
        ∧ Z.ncols = ([0] : List Nat).length
        ∧ ∀ row ∈ Z.rows, row.length = ([0] : List Nat).length)
      ∧ (∃ Z, (FClassifSelectPercentile.mk 10 [0] (some [0])).transform
            (Mat.mk 1 [[2]]) = some Z
        ∧ Z.ncols = ([0] : List Nat).length
        ∧ ∀ row ∈ Z.rows, row.length = ([0] : List Nat).length)
      ∧ ((ModelSelector.mk 0 false [0] [1] (some 1) []).selected_indices
            ≠ [] →
          ∃ Z, (ModelSelector.mk 0 false [0] [1] (some 1) []).transform
              (Mat.mk 1 [[5]]) = some Z
            ∧ Z.ncols = (ModelSelector.mk 0 false [0] [1] (some 1)
                []).selected_indices.length
            ∧ ∀ row ∈ Z.rows, row.length = (ModelSelector.mk 0 false [0]
                [1] (some 1) []).selected_indices.length)
      ∧ ((ModelSelector.mk 0 false [0] [1] (some 1) []).selected_indices
            = [] →
          (ModelSelector.mk 0 false [0] [1] (some 1) []).transform
            (Mat.mk 1 [[5]]) = some (Mat.mk 1 [[5]]))
      ∧ (∃ msl Z, (LassoFeatureSelection.mk 1 1
            (some (ModelSelector.mk 1 true [0] [2] (some 1)
              [("alpha", 1)]))).model_selector = some msl
          ∧ (LassoFeatureSelection.mk 1 1
              (some (ModelSelector.mk 1 true [0] [2] (some 1)
                [("alpha", 1)]))).transform (Mat.mk 1 [[6]]) = some Z
          ∧ Z.ncols = msl.selected_indices.length
          ∧ ∀ row ∈ Z.rows, row.length = msl.selected_indices.length)) :=
  ⟨⟨by decide, by decide, by decide, by decide, by decide, by decide,
    by decide, by decide, lasso_fit_example, by decide, by decide⟩,
    C1_amended_feature_count (FRegressionFilterPValue.init 1)
      (Mat.mk 1 []) [0] (Mat.mk 1 [[4]]) (by decide) (by decide)
      (FRegressionSelectPercentile.mk 10 [0] (some [0])) [0]
      (Mat.mk 1 [[2]]) (by decide) (by decide) (by decide)
      (FClassifSelectPercentile.mk 10 [0] (some [0])) [0]
      (Mat.mk 1 [[2]]) (by decide) (by decide) (by decide)
      (ModelSelector.init [] 0 false)
      (ModelSelector.mk 0 false [0] [1] (some 1) [])
      (Mat.mk 1 []) [1] (Mat.mk 1 [[5]]) (by decide) (by decide)
      (by decide)
      (LassoFeatureSelection.mk 1 1 none)
      (LassoFeatureSelection.mk 1 1
        (some (ModelSelector.mk 1 true [0] [2] (some 1) [("alpha", 1)])))
      (Mat.mk 1 []) [2] (Mat.mk 1 [[6]]) lasso_fit_example (by decide)
      (by decide)⟩

/-- C8 (amended): for every wrapped estimator, ModelSelector.set_params
assigns the threshold entry, when present, to the wrapper's own
threshold attribute and forwards only the remaining entries to the
wrapped estimator, so a call with only a threshold entry leaves every
parameter of the wrapped estimator unchanged (also when the wrapped
estimator itself has a threshold parameter: the wrapper's attribute
shadows it); ModelSelector.get_params returns the wrapped estimator's
parameters only, so a threshold key appears in its result exactly when
the wrapped estimator itself has a parameter of that name, and is
absent whenever the wrapped estimator has none. -/
theorem C8_amended_set_get_params (ms : ModelSelector) (v : ℚ)
    (dp : Bool) :
    ms.set_params [("threshold", v)] = .ok { ms with threshold := v }
    ∧ ms.get_params dp = ms.estimator_params
    ∧ ((ms.get_params dp).lookup "threshold" =
        ms.estimator_params.lookup "threshold")
    ∧ (ms.estimator_params.lookup "threshold" = none →
        (ms.get_params dp).lookup "threshold" = none) := by
  refine ⟨?_, rfl, rfl, fun h => h⟩
  simp [ModelSelector.set_params, estSetParams, List.lookup]
  rfl

/-- C8 counterexample: when the wrapped estimator itself has a parameter
named threshold (nothing in ModelSelector forbids this: its constructor
accepts any estimator object), get_params does report a threshold key,
so the key is not absent from every get_params result. -/
theorem C8_counterexample :
    (ModelSelector.init [("threshold", 2)] 1 false).get_params true =
      [("threshold", 2)]
    ∧ ((ModelSelector.init [("threshold", 2)] 1 false).get_params
        true).lookup "threshold" = some 2 :=
  ⟨rfl, by decide⟩

theorem C8_witness :
    (ModelSelector.init [("threshold", 2)] 1 false).set_params
        [("threshold", 5)] =
      .ok (ModelSelector.mk 5 false [] [] none [("threshold", 2)])
    ∧ (ModelSelector.init [("threshold", 2)] 1 false).get_params true =
        (ModelSelector.init [("threshold", 2)] 1 false).estimator_params
    ∧ (((ModelSelector.init [("threshold", 2)] 1 false).get_params
          true).lookup "threshold" =
        (ModelSelector.init [("threshold", 2)] 1
          false).estimator_params.lookup "threshold")
    ∧ ((ModelSelector.init [("threshold", 2)] 1
          false).estimator_params.lookup "threshold" = none →
        ((ModelSelector.init [("threshold", 2)] 1 false).get_params
          true).lookup "threshold" = none) :=
  C8_amended_set_get_params
    (ModelSelector.init [("threshold", 2)] 1 false) 5 true

theorem compareLoop_config_dict_list (selected : List String)
    (tested : List MDBConfiguration) :
    (compareLoop selected tested).2.2.2 =
      (tested.filter (fun c =>
        selected.contains (toString c.config_nr))).map
        (fun c => ("config_" ++ toString c.config_nr, c.config_dict)) := by
  induction tested with
  | nil => rfl
  | cons c rest ih =>
    simp only [compareLoop, List.filter_cons]
    by_cases hc : selected.contains (toString c.config_nr) = true
    · rw [if_pos hc, if_pos hc]
      simp only [List.map_cons]
      rw [← ih]
    · rw [if_neg hc, if_neg hc]
      exact ih

/-- C5: the compare_configurations route handler catches exactly
ValidationError and ConnectionError, returning the exception's message
string as the HTTP response body; on success it renders the
configuration/compare.html template whose configuration-dictionary list
contains exactly the tested configurations whose config_nr occurred in
the submitted config_list form field, in order; any other exception
propagates to the caller. -/
theorem C5_compare_configurations_behaviour
    (form : List String) (tested : List MDBConfiguration)
    (m1 m2 e : String) :
    (∃ p, compare_configurations form (.ok tested) = .page p
      ∧ p.template = "configuration/compare.html"
      ∧ p.config_dict_list =
          (tested.filter (fun c =>
            form.contains (toString c.config_nr))).map
            (fun c => ("config_" ++ toString c.config_nr, c.config_dict)))
    ∧ compare_configurations form (.error (.validationError m1)) = .body m1
    ∧ compare_configurations form (.error (.connectionError m2)) = .body m2
    ∧ compare_configurations form (.error (.otherExc e)) = .raised e := by
  exact ⟨⟨_, rfl, rfl, compareLoop_config_dict_list form tested⟩,
    rfl, rfl, rfl⟩

/-- C9: a Switch accumulates the candidate estimators added to it with
+=, and every configuration generated for it by the hyperparameter
search activates exactly one of those candidates (the choice is mutually
exclusive). Settled against the spec-modelled Switch: the Switch class
itself is not under src/. -/
theorem C9_switch_exactly_one_active (sw : Switch) (e : PipelineElement)
    (cfg : SwitchConfig) (h : cfg ∈ sw.generateConfigs) :
    (sw.iadd e).elements = sw.elements ++ [e]
    ∧ cfg.active_index < sw.elements.length
    ∧ ((List.range sw.elements.length).filter
        (fun i => cfg.isActive i)).length = 1 := by
  have hlt : cfg.active_index < sw.elements.length := by
    rcases List.mem_flatMap.1 h with ⟨p, hp, hc⟩
    obtain ⟨i, pe⟩ := p
    rcases List.mem_map.1 hc with ⟨c, _, hceq⟩
    have h2 := (List.mem_enum hp).1
    rw [← hceq]
    exact h2
  refine ⟨rfl, hlt, ?_⟩
  simp only [SwitchConfig.isActive]
  rw [List.filter_beq, List.length_replicate]
  exact List.count_eq_one_of_mem (List.nodup_range _)
    (List.mem_range.2 hlt)

theorem C9_witness :
    (SwitchConfig.mk 0 [("C", 1)] ∈
      (Switch.mk "estimator_selection"
        [PipelineElement.mk "SVC" [[("C", 1)]],
         PipelineElement.mk "LogisticRegression" [[("C", 2)]]]).generateConfigs)
    ∧ (((Switch.mk "estimator_selection"
          [PipelineElement.mk "SVC" [[("C", 1)]],
           PipelineElement.mk "LogisticRegression" [[("C", 2)]]]).iadd
            (PipelineElement.mk "MLPClassifier" [])).elements =
        [PipelineElement.mk "SVC" [[("C", 1)]],
         PipelineElement.mk "LogisticRegression" [[("C", 2)]]] ++
          [PipelineElement.mk "MLPClassifier" []]
      ∧ (SwitchConfig.mk 0 [("C", 1)]).active_index <
          (Switch.mk "estimator_selection"
            [PipelineElement.mk "SVC" [[("C", 1)]],
             PipelineElement.mk "LogisticRegression"
               [[("C", 2)]]]).elements.length
      ∧ ((List.range (Switch.mk "estimator_selection"
            [PipelineElement.mk "SVC" [[("C", 1)]],
             PipelineElement.mk "LogisticRegression"
               [[("C", 2)]]]).elements.length).filter
          (fun i => (SwitchConfig.mk 0 [("C", 1)]).isActive i)).length = 1) :=
  ⟨by decide,
    C9_switch_exactly_one_active
      (Switch.mk "estimator_selection"
        [PipelineElement.mk "SVC" [[("C", 1)]],
         PipelineElement.mk "LogisticRegression" [[("C", 2)]]])
      (PipelineElement.mk "MLPClassifier" [])
      (SwitchConfig.mk 0 [("C", 1)]) (by decide)⟩
